import Mathlib

/-!
Verification development for the request/response engine of the `asks`
asynchronous HTTP client (source file `src/asks/request.py`).

The Python source is shallowly embedded: pure fragments become Lean
functions over `String`, `List Char` and `List Nat` (bytes); fallible
fragments return `Except Unit`; external collaborators (the file system,
the stream parser, the `mimetypes`/`json`/`urllib.parse.quote` standard
library services) are modelled explicitly and documented at their
definitions.  Character strings are manipulated through their underlying
character lists so that every definition evaluates by kernel reduction.

Conventions:
* bytes are `List Nat`, each entry `< 256`;
* the configured request encoding is modelled as UTF-8 (the encoding the
  library is used with; `bytes(s, encoding)` becomes `utf8Bytes s`);
* Python `dict`s become association lists in insertion order, which is
  exactly the iteration order Python guarantees.
-/

/-- Join a list of strings with a separator, no leading or trailing
separator.  Used to state claim-side shapes such as `'; '`-joined cookie
pairs and `'&'`-joined query pairs, and to embed Python `sep.join(...)`. -/
def joinSep (sep : String) : List String → String
  | [] => ""
  | [x] => x
  | x :: rest => x ++ sep ++ joinSep sep rest

/-- Python `str.join` on a list with no separator (`''.join`), and the
string concatenation of a list of fragments. -/
def joinAll : List String → String
  | [] => ""
  | x :: rest => x ++ joinAll rest

/-- UTF-8 encoding of a single character, by the standard algorithm over
its code point.  Models CPython's `str.encode('utf-8')` per character. -/
def utf8Char (c : Char) : List Nat :=
  let n := c.toNat
  if n < 0x80 then [n]
  else if n < 0x800 then [0xC0 + n / 0x40, 0x80 + n % 0x40]
  else if n < 0x10000 then
    [0xE0 + n / 0x1000, 0x80 + (n / 0x40) % 0x40, 0x80 + n % 0x40]
  else
    [0xF0 + n / 0x40000, 0x80 + (n / 0x1000) % 0x40,
     0x80 + (n / 0x40) % 0x40, 0x80 + n % 0x40]

/-- UTF-8 encoding of a string: the model of `bytes(s, encoding)` /
`s.encode(encoding)` with the configured encoding taken as UTF-8. -/
def utf8Bytes (s : String) : List Nat :=
  s.data.flatMap utf8Char

/-- Lowercase a string character-wise (model of Python `str.lower` for
the ASCII header names compared case-insensitively here). -/
def lowerStr (s : String) : String :=
  String.mk (s.data.map Char.toLower)

/-- Strip leading and trailing whitespace from a character list. -/
def stripChars (l : List Char) : List Char :=
  ((l.dropWhile Char.isWhitespace).reverse.dropWhile Char.isWhitespace).reverse

/-- Python `str.strip()`. -/
def pyStrip (s : String) : String :=
  String.mk (stripChars s.data)

/-- Decimal digits to a number, `none` if empty or a non-digit occurs. -/
def decDigits? : List Char → Option Nat
  | [] => none
  | l => go l 0
where
  go : List Char → Nat → Option Nat
    | [], acc => some acc
    | c :: rest, acc =>
      if c.isDigit then go rest (acc * 10 + (c.toNat - 48)) else none

/-- Model of Python `int(s)` on a decimal string: optional sign after
stripping surrounding whitespace; `none` models the `ValueError`. -/
def pyInt? (s : String) : Option Int :=
  match stripChars s.data with
  | '-' :: ds => (decDigits? ds).map (fun n => -(n : Int))
  | '+' :: ds => (decDigits? ds).map (fun n => (n : Int))
  | ds => (decDigits? ds).map (fun n => (n : Int))

/-- Python `str.split()` with no argument: split on runs of whitespace,
discarding empty fragments (hence also leading/trailing whitespace). -/
def pySplitWhitespace (s : String) : List String :=
  (s.data.splitOnP Char.isWhitespace).map String.mk |>.filter (fun x => x ≠ "")

/-- The transformation `'+'.join(str(v).split())` from `_dict_2_query`:
runs of whitespace become a single `+`, outer whitespace is dropped. -/
def whitespaceToPlus (s : String) : String :=
  joinSep "+" (pySplitWhitespace s)

/-- Bytes that `urllib.parse.quote` never escapes: ASCII letters,
digits, and `_.-~`. -/
def alwaysSafeByte (b : Nat) : Bool :=
  (0x41 ≤ b && b ≤ 0x5A) || (0x61 ≤ b && b ≤ 0x7A) ||
  (0x30 ≤ b && b ≤ 0x39) || b == 0x5F || b == 0x2E || b == 0x2D || b == 0x7E

/-- Safe set used by `_queryify`: the always-safe bytes plus the extra
safe characters `/=+?&` passed as `safe='/=+?&'`. -/
def querySafeByte (b : Nat) : Bool :=
  alwaysSafeByte b || b == 0x2F || b == 0x3D || b == 0x2B || b == 0x3F || b == 0x26

/-- Uppercase hexadecimal digit, as `quote` produces in `%XX` escapes. -/
def hexDigitUpper (n : Nat) : Char :=
  if n < 10 then Char.ofNat (48 + n) else Char.ofNat (55 + n)

/-- Percent-encode one byte under the `_queryify` safe set. -/
def quoteByte (b : Nat) : String :=
  if querySafeByte b then String.singleton (Char.ofNat b)
  else "%" ++ String.singleton (hexDigitUpper (b / 16)) ++
       String.singleton (hexDigitUpper (b % 16))

/-- Embedding of `Request._queryify` (request.py lines 311-316): the
argument is encoded with the configured encoding (UTF-8 here) and passed
through `urllib.parse.quote` with `safe='/=+?&'`, modelled byte-wise. -/
def queryify (query : String) : String :=
  joinAll ((utf8Bytes query).map quoteByte)

/-- Dynamic Python values as they may appear among request parameter and
form-data mappings: strings, numbers, nested mappings and list-like
iterables. -/
inductive PyVal where
  | str (s : String)
  | num (n : Int)
  | dict (kvs : List (String × PyVal))
  | list (xs : List PyVal)

mutual

/-- Python `str(v)`: identity on strings, decimal rendering of numbers,
`repr`-style rendering of containers. -/
def pyStr : PyVal → String
  | .str s => s
  | .num n => toString n
  | .dict kvs => pyReprDict kvs
  | .list xs => pyReprList xs

/-- Python `repr(v)` (strings quoted; quote character written via its
code point to keep the sources plain). -/
def pyRepr : PyVal → String
  | .str s =>
    String.singleton (Char.ofNat 39) ++ s ++ String.singleton (Char.ofNat 39)
  | .num n => toString n
  | .dict kvs => pyReprDict kvs
  | .list xs => pyReprList xs

/-- Python `repr` of a dict literal. -/
def pyReprDict (kvs : List (String × PyVal)) : String :=
  "\x7b" ++ pyReprDictBody kvs ++ "\x7d"

/-- Comma-joined `k: v` body of a dict repr. -/
def pyReprDictBody : List (String × PyVal) → String
  | [] => ""
  | [(k, v)] =>
    String.singleton (Char.ofNat 39) ++ k ++ String.singleton (Char.ofNat 39)
      ++ ": " ++ pyRepr v
  | (k, v) :: rest =>
    String.singleton (Char.ofNat 39) ++ k ++ String.singleton (Char.ofNat 39)
      ++ ": " ++ pyRepr v ++ ", " ++ pyReprDictBody rest

/-- Python `repr` of a list literal. -/
def pyReprList (xs : List PyVal) : String :=
  "[" ++ pyReprListBody xs ++ "]"

/-- Comma-joined body of a list repr. -/
def pyReprListBody : List PyVal → String
  | [] => ""
  | [x] => pyRepr x
  | x :: rest => pyRepr x ++ ", " ++ pyReprListBody rest

end

/-- Python truthiness test `not v` used by `_dict_2_query`: empty
string, zero, empty dict and empty list are falsy. -/
def pyFalsy : PyVal → Bool
  | .str s => s == ""
  | .num n => n == 0
  | .dict kvs => kvs.isEmpty
  | .list xs => xs.isEmpty

/-- The queries appended for one `k, v` item of the loop body of
`Request._dict_2_query` (request.py lines 246-259): nothing for falsy
values; one whitespace-to-`+` pair for scalars; one `key=subkey` pair
per subkey for nested dicts (their values ignored); one pair per
element for other iterables. -/
def d2qEntry (k : String) : PyVal → List String
  | v =>
    if pyFalsy v then []
    else
      match v with
      | .str s => [queryify (k ++ "=" ++ whitespaceToPlus s)]
      | .num n => [queryify (k ++ "=" ++ whitespaceToPlus (toString n))]
      | .dict kvs => kvs.map (fun kv => queryify (k ++ "=" ++ kv.1))
      | .list xs => xs.map (fun e => queryify (k ++ "=" ++ whitespaceToPlus (pyStr e)))

/-- The `query` list accumulated by the `for k, v in data.items()` loop
of `Request._dict_2_query`, in iteration order. -/
def d2qPairs (data : List (String × PyVal)) : List String :=
  data.foldl (fun query kv => query ++ d2qEntry kv.1 kv.2) []

/-- Embedding of `Request._dict_2_query` (request.py lines 235-267)
including the `params` / `base_query` prefix selection on the joined
pair list. -/
def dict_2_query (data : List (String × PyVal))
    (params : Bool := true) (base_query : Bool := false) : String :=
  let query := d2qPairs data
  if params && !query.isEmpty then
    if !base_query then "?" ++ joinSep "&" query
    else "&" ++ joinSep "&" query
  else joinSep "&" query

/-- Claim-side restatement of C7: the encoder output is, per entry of
the input mapping in iteration order, the pairs described by the spec
(scalars whitespace-to-`+`, nested mappings flattened to `key=subkey`
with submap values dropped, iterables one pair per element, falsy
values skipped), percent-encoded with the `/=+?&`-preserving safe set.  -/
def claimQueryPairs (data : List (String × PyVal)) : List String :=
  data.flatMap (fun kv =>
    if pyFalsy kv.2 then []
    else
      match kv.2 with
      | .str s => [queryify (kv.1 ++ "=" ++ whitespaceToPlus s)]
      | .num n => [queryify (kv.1 ++ "=" ++ whitespaceToPlus (toString n))]
      | .dict kvs => kvs.map (fun sub => queryify (kv.1 ++ "=" ++ sub.1))
      | .list xs =>
        xs.map (fun e => queryify (kv.1 ++ "=" ++ whitespaceToPlus (pyStr e))))

/-- Accumulation loop for the cookie header value in `_build_request`
(request.py lines 115-117): `cookie_str += '{}={}; '.format(k, v)`. -/
def cookie_str (cookies : List (String × String)) : String :=
  cookies.foldl (fun acc kv => acc ++ (kv.1 ++ "=" ++ kv.2 ++ "; ")) ""

/-- Python slice `s[:-1]`: all characters but the last. -/
def pyDropLastChar (s : String) : String :=
  String.mk s.data.dropLast

/-- The single cookie line appended to the package (request.py line
118): `'Cookie: ' + cookie_str[:-1]`. -/
def cookie_header_line (cookies : List (String × String)) : String :=
  "Cookie: " ++ pyDropLastChar (cookie_str cookies)

/-- The list of cookie lines `_build_request` appends to the package
(request.py lines 114-118): exactly one when the merged cookie mapping
is non-empty (`if self.cookies:`), none otherwise. -/
def cookie_lines (cookies : List (String × String)) : List String :=
  if cookies.isEmpty then [] else [cookie_header_line cookies]

/-- Split a character list on every occurrence of a separator
character, keeping empty fragments, like Python `s.split(sep)`. -/
def splitOnChar (sep : Char) : List Char → List (List Char)
  | [] => [[]]
  | c :: rest =>
    let r := splitOnChar sep rest
    if c = sep then [] :: r
    else
      match r with
      | h :: t => (c :: h) :: t
      | [] => [[c]]

/-- Characters following the first `://`, if any. -/
def afterSchemeSep : List Char → Option (List Char)
  | ':' :: '/' :: '/' :: rest => some rest
  | _ :: rest => afterSchemeSep rest
  | [] => none

/-- Netloc component of `urlparse` for the absolute URIs this client
receives: the text between the first `://` and the following `/`, `?`
or `#`; empty when the URI has no `//` authority marker.  Models the
standard-library collaborator `urllib.parse.urlparse(...).netloc`. -/
def uriNetloc (uri : String) : String :=
  match afterSchemeSep uri.data with
  | some rest =>
    String.mk (rest.takeWhile (fun c => c ≠ '/' && c ≠ '?' && c ≠ '#'))
  | none => ""

/-- Scheme component of `urlparse`: the characters before the first
colon.  (Only consulted by claim C5's spec-side default-port rule; the
code itself tests `uri.startswith('https')` instead.) -/
def uriScheme (uri : String) : String :=
  String.mk (uri.data.takeWhile (fun c => c ≠ ':'))

/-- Python `str.startswith` on character lists. -/
def strBeginsWith (s p : String) : Bool :=
  s.data.take p.data.length == p.data

/-- The port string `_build_request` ends up with (request.py lines
63-70): the part after the colon when `netloc.split(':')` yields
exactly two pieces, otherwise (`ValueError` branch) `'443'` when the
full URI starts with `https`, else `'80'`. -/
def effectivePort (uri : String) : String :=
  match splitOnChar ':' (uriNetloc uri).data with
  | [_, p] => String.mk p
  | _ => if strBeginsWith uri "https" then "443" else "80"

/-- The host part `_build_request` keeps: `netloc` is replaced by the
piece before the colon only when the split succeeds (two pieces); on
`ValueError` the netloc is left untouched. -/
def bareHost (uri : String) : String :=
  match splitOnChar ':' (uriNetloc uri).data with
  | [h, _] => String.mk h
  | _ => uriNetloc uri

/-- Embedding of the `Host` header computation (request.py lines
72-74): the bare netloc when the port string is `'80'` or `'443'`,
else `netloc + ':' + port`. -/
def hostHeader (uri : String) : String :=
  if effectivePort uri == "80" || effectivePort uri == "443" then bareHost uri
  else bareHost uri ++ ":" ++ effectivePort uri

/-- Claim-side default port of a scheme for C5: `443` for the https
scheme, `80` otherwise. -/
def claimDefaultPort (scheme : String) : String :=
  if scheme == "https" then "443" else "80"

/-- Response header block as produced by the stream-parser collaborator:
an association list looked up case-insensitively (the parser stores
headers in the library's case-insensitive mapping). -/
def lookupHeader (hs : List (String × String)) (k : String) : Option String :=
  (hs.find? (fun kv => lowerStr kv.1 == lowerStr k)).map (fun kv => kv.2)

/-- Body-framing modes `_catch_response` can select: a fixed-length
read (with the optional streaming callback passed through) or a chunked
decode.  These are the `parse_kwargs` shapes of request.py lines
348-357. -/
inductive ParseMode where
  | length (n : Int) (callback : Option String)
  | chunked
deriving DecidableEq

/-- Framing decision outcomes for a response body. -/
inductive Framing where
  | length (n : Int)
  | chunked
  | noBody
deriving DecidableEq

/-- Embedding of the framing decision of `Request._catch_response`
(request.py lines 342-359): a present `Content-Length` is parsed with
`int` (an unparsable value propagates `ValueError`, modelled as
`Except.error`); a positive value selects a fixed-length read; the
`Transfer-Encoding: chunked` test runs only in the `KeyError` branch,
i.e. only when no `Content-Length` header is present at all. -/
def body_framing (hs : List (String × String)) : Except Unit Framing :=
  match lookupHeader hs "Content-Length" with
  | some cl =>
    match pyInt? cl with
    | none => .error ()
    | some n => if 0 < n then .ok (.length n) else .ok .noBody
  | none =>
    match lookupHeader hs "Transfer-Encoding" with
    | some te => if pyStrip te == "chunked" then .ok .chunked else .ok .noBody
    | none => .ok .noBody

/-- Embedding of the body field of the `Response` built by
`_catch_response` (request.py lines 342-363).  `parserBody` is the
stream-parser collaborator `HttpParser.parse_body`, modelled from the
spec as returning the body data it parsed for the given kwargs.  When a
callback is configured and the length is positive, line 350 first sets
the body to the callback's name, but because `parse_kwargs` is
non-empty line 361 then overwrites the body with `parse_body`'s return
value; the pair below carries that intermediate sentinel faithfully. -/
def catch_response_body (hs : List (String × String)) (callback : Option String)
    (parserBody : ParseMode → String) : Except Unit (Option String) :=
  match body_framing hs with
  | .error e => .error e
  | .ok (.length n) =>
    let sentinelAndKwargs :=
      match callback with
      | some cb => (some cb, ParseMode.length n (some cb))
      | none => (none, ParseMode.length n none)
    -- line 361: `resp['body'] = await parser.parse_body(**parse_kwargs)`
    .ok (some (parserBody sentinelAndKwargs.2))
  | .ok .chunked => .ok (some (parserBody .chunked))
  | .ok .noBody => .ok none

/-- Claim-side framing order stated by C3: `Content-Length` present
with a value parsing to `N > 0` reads N bytes; otherwise a present
`Transfer-Encoding: chunked` selects the chunked decode; otherwise the
body is absent. -/
def claimedChunkedCheck (hs : List (String × String)) : Framing :=
  match lookupHeader hs "Transfer-Encoding" with
  | some te => if pyStrip te == "chunked" then .chunked else .noBody
  | none => .noBody

/-- Claim-side framing decision for C3 (see `claimedChunkedCheck`). -/
def claimedFraming (hs : List (String × String)) : Framing :=
  match lookupHeader hs "Content-Length" with
  | some cl =>
    match pyInt? cl with
    | some n => if 0 < n then .length n else claimedChunkedCheck hs
    | none => claimedChunkedCheck hs
  | none => claimedChunkedCheck hs

/-- Embedding of the redirect-budget behaviour of `Request.request_io`
(request.py lines 140-146) together with `_redirect` (lines 171-202):
processing the response to one request, for a non-`HEAD` method the
code first raises `TooManyRedirects` when the counter is already
negative, then decrements it, and only then follows a redirect (which
re-enters `request_io` on the next response).  `offers` scripts the
peer: the response to the current request is a redirect exactly when
the head is `true`.  The result carries the number of redirects
followed: `.error i` models `TooManyRedirects` raised after following
`i` redirects, `.ok i` a normal completion after `i` redirects. -/
def request_io (method : String) (b : Int) :
    List Bool → Nat → Except Nat Nat
  | offers, i =>
    if method == "HEAD" then .ok i
    else if b < 0 then .error i
    else
      match offers with
      | true :: rest => request_io method (b - 1) rest (i + 1)
      | _ => .ok i

/-- Python `os.path.basename` for POSIX paths: the part after the last
slash.  Standard-library collaborator model. -/
def basename (p : String) : String :=
  String.mk ((splitOnChar '/' p.data).getLastD [])

/-- Python `str.endswith` on character lists. -/
def strEndsWith (s p : String) : Bool :=
  s.data.drop (s.data.length - p.data.length) == p.data && p.data.length ≤ s.data.length

/-- Drop the last `n` characters. -/
def strDropRight (s : String) (n : Nat) : String :=
  String.mk (s.data.take (s.data.length - n))

/-- Extension of a file name: a dot plus the last dot-separated piece,
lowercased; empty when the name contains no dot.  Part of the
`mimetypes.guess_type` collaborator model. -/
def extOf (name : String) : String :=
  match splitOnChar '.' name.data with
  | [] => ""
  | [_] => ""
  | parts => "." ++ lowerStr (String.mk (parts.getLastD []))

/-- Suffix-to-MIME-type table: the relevant rows of the Python
`mimetypes` registry for extensions exercised here; unknown extensions
map to `none` exactly as `guess_type` reports no type. -/
def mimeTable (ext : String) : Option String :=
  if ext == ".txt" then some "text/plain"
  else if ext == ".jpg" || ext == ".jpeg" then some "image/jpeg"
  else if ext == ".png" then some "image/png"
  else if ext == ".html" || ext == ".htm" then some "text/html"
  else if ext == ".json" then some "application/json"
  else if ext == ".csv" then some "text/csv"
  else if ext == ".pdf" then some "application/pdf"
  else if ext == ".tar" then some "application/x-tar"
  else if ext == ".zip" then some "application/zip"
  else none

/-- Compression-suffix handling of `mimetypes.guess_type`: a trailing
`.gz`/`.bz2`/`.xz`/`.Z` is reported in the second slot as the encoding
and stripped before the extension lookup. -/
def encodingSuffix (name : String) : Option String × String :=
  if strEndsWith name ".gz" then (some "gzip", strDropRight name 3)
  else if strEndsWith name ".bz2" then (some "bzip2", strDropRight name 4)
  else if strEndsWith name ".xz" then (some "xz", strDropRight name 3)
  else if strEndsWith name ".Z" then (some "compress", strDropRight name 2)
  else (none, name)

/-- Model of the standard-library collaborator
`mimetypes.guess_type(name)`: a `(type, encoding)` pair, the type
guessed from the (lower-cased) extension after peeling a compression
suffix, the encoding from that suffix. -/
def guess_type (name : String) : Option String × Option String :=
  let es := encodingSuffix name
  (mimeTable (extOf es.2), es.1)

/-- Embedding of the MIME-type selection inside `Request._multipart`
(request.py lines 292-296).  The code tests `mime_type[1]` — the
*encoding* slot of the `guess_type` pair — and on any falsy encoding
declares `application/octet-stream`; otherwise it joins the whole pair
with `/`.  When the encoding is present but the type slot is `None`,
`'/'.join` raises `TypeError` (modelled as `Except.error`), which the
surrounding handler catches. -/
def multipartMime (filename : String) : Except Unit String :=
  let mt := guess_type filename
  match mt.2 with
  | none => .ok "application/octet-stream"
  | some enc =>
    match mt.1 with
    | some t => .ok (t ++ "/" ++ enc)
    | none => .error ()

/-- Carriage-return/line-feed byte pair. -/
def crlfB : List Nat := [13, 10]

/-- The two `-` bytes prefixing boundary delimiters. -/
def dashdashB : List Nat := [45, 45]

/-- A `--boundary\r\n` delimiter opening one part (request.py line
283). -/
def part_delim (boundary : String) : List Nat :=
  dashdashB ++ utf8Bytes boundary ++ crlfB

/-- The terminal `--boundary--\r\n` marker (request.py line 308). -/
def terminal_delim (boundary : String) : List Nat :=
  dashdashB ++ utf8Bytes boundary ++ dashdashB ++ crlfB

/-- The `Content-Disposition` header text for a plain field part
(`hder_format` of request.py line 275). -/
def dispField (k : String) : String :=
  "Content-Disposition: form-data; name=\"" ++ k ++ "\""

/-- The `Content-Disposition` header text for a file part, with the
`filename` parameter (`hder_format + hder_format_io`, lines 275-276). -/
def dispFile (k v : String) : String :=
  dispField k ++ "; filename=\"" ++ basename v ++ "\""

/-- Bytes contributed by one part of `Request._multipart` (request.py
lines 282-305), after its `--boundary\r\n` delimiter.  `fs` is the file
system collaborator: `fs v = some content` when `v` names a readable
file (whose bytes `aopen`/`readlines` yield), `none` when opening
raises `FileNotFoundError`, which the handler turns into a plain text
field.  A `TypeError` from `'/'.join` on a half-guessed MIME pair is
caught by the same handler after the file-branch disposition bytes were
already appended, so both fragments appear. -/
def part_bytes (fs : String → Option (List Nat)) (k v : String) : List Nat :=
  match fs v with
  | some content =>
    match multipartMime (basename v) with
    | .ok mime =>
      utf8Bytes (dispFile k v) ++ utf8Bytes ("; Content-Type: " ++ mime) ++
        crlfB ++ crlfB ++ (content ++ crlfB)
    | .error _ =>
      utf8Bytes (dispFile k v) ++ utf8Bytes (dispField k ++ "\r\n\r\n") ++
        (utf8Bytes v ++ crlfB)
  | none =>
    utf8Bytes (dispField k ++ "\r\n\r\n") ++ (utf8Bytes v ++ crlfB)

/-- Bytes of one part for a dynamically typed part value.  A non-string
value makes `aopen(v)` raise `TypeError`, the handler then calls
`bytes(v, encoding)` which raises an uncaught `TypeError`: the whole
request fails, modelled as `Except.error`. -/
def part_bytes_v (fs : String → Option (List Nat)) (k : String) :
    PyVal → Except Unit (List Nat)
  | .str s => .ok (part_bytes fs k s)
  | _ => .error ()

/-- Embedding of the loop of `Request._multipart` (request.py lines
278-309): every part is prefixed by `--boundary\r\n`; after the final
part (`index == num_of_parts`) the terminal `--boundary--\r\n` marker
is appended.  An empty parts dict never enters the loop and yields the
empty byte string. -/
def multipart_pkg (fs : String → Option (List Nat)) (boundary : String) :
    List (String × PyVal) → Except Unit (List Nat)
  | [] => .ok []
  | [(k, v)] => do
    let pb ← part_bytes_v fs k v
    pure (part_delim boundary ++ pb ++ terminal_delim boundary)
  | (k, v) :: rest => do
    let pb ← part_bytes_v fs k v
    let restBytes ← multipart_pkg fs boundary rest
    pure (part_delim boundary ++ pb ++ restBytes)

/-- String-valued parts wrapped into `PyVal`, matching `_multipart`'s
usual name-to-path/value dicts. -/
def strParts (parts : List (String × String)) : List (String × PyVal) :=
  parts.map (fun kv => (kv.1, PyVal.str kv.2))

/-- Claim-side multipart shape for C8: each part preceded by a
`--boundary\r\n` delimiter, the terminal `--boundary--` marker after
the final part — i.e. `(number of parts) + 1` boundary delimiters. -/
def multipart_claim_shape (fs : String → Option (List Nat))
    (boundary : String) (parts : List (String × String)) : List Nat :=
  (parts.flatMap (fun kv => part_delim boundary ++ part_bytes fs kv.1 kv.2)) ++
    terminal_delim boundary

/-- JSON-serializable payloads for the `json=` request argument. -/
inductive JsonVal where
  | null
  | boolean (b : Bool)
  | num (n : Int)
  | str (s : String)
  | arr (xs : List JsonVal)
  | obj (kvs : List (String × JsonVal))

/-- Lowercase hexadecimal digit (for `\uXXXX` escapes of `json.dumps`). -/
def hexDigitLower (n : Nat) : Char :=
  if n < 10 then Char.ofNat (48 + n) else Char.ofNat (87 + n)

/-- Four-digit lowercase hex rendering of a code point below 0x10000. -/
def hex4 (n : Nat) : String :=
  String.mk [hexDigitLower (n / 0x1000 % 16), hexDigitLower (n / 0x100 % 16),
             hexDigitLower (n / 0x10 % 16), hexDigitLower (n % 16)]

/-- Escaping of one character inside a JSON string as CPython
`json.dumps` produces with its default `ensure_ascii=True`: short
escapes for the common controls, `\uXXXX` for other controls and all
non-ASCII characters (code points above 0xFFFF, which CPython encodes
as surrogate pairs, are not exercised here). -/
def jsonEscapeChar (c : Char) : String :=
  if c = '"' then "\\\""
  else if c = '\\' then "\\\\"
  else if c = '\n' then "\\n"
  else if c = '\t' then "\\t"
  else if c = '\r' then "\\r"
  else if c.toNat < 0x20 || 0x7E < c.toNat then "\\u" ++ hex4 c.toNat
  else String.singleton c

/-- A JSON string literal as `json.dumps` renders it. -/
def jsonQuoteStr (s : String) : String :=
  "\"" ++ joinAll (s.data.map jsonEscapeChar) ++ "\""

mutual

/-- Model of the standard-library collaborator `json.dumps` with its
default separators `', '` and `': '` and ASCII-only output. -/
def jsonDumps : JsonVal → String
  | .null => "null"
  | .boolean b => if b then "true" else "false"
  | .num n => toString n
  | .str s => jsonQuoteStr s
  | .arr xs => "[" ++ jsonDumpsArr xs ++ "]"
  | .obj kvs => "\x7b" ++ jsonDumpsObj kvs ++ "\x7d"

/-- Comma-joined array elements of a `json.dumps` rendering. -/
def jsonDumpsArr : List JsonVal → String
  | [] => ""
  | [x] => jsonDumps x
  | x :: rest => jsonDumps x ++ ", " ++ jsonDumpsArr rest

/-- Comma-joined object members of a `json.dumps` rendering. -/
def jsonDumpsObj : List (String × JsonVal) → String
  | [] => ""
  | [(k, v)] => jsonQuoteStr k ++ ": " ++ jsonDumps v
  | (k, v) :: rest => jsonQuoteStr k ++ ": " ++ jsonDumps v ++ ", " ++ jsonDumpsObj rest

end

/-- The `data=` argument of a request: either a mapping (the usual
form-data case) or a plain non-mapping value such as a raw string,
which has no `.items` and triggers the `AttributeError` fallback. -/
inductive DataArg where
  | dict (kvs : List (String × PyVal))
  | raw (s : String)

/-- A Python request body: text (`str`) or bytes, distinguished because
`len` and the final wire conversion treat them differently. -/
inductive BodyV where
  | str (s : String)
  | bytes (bs : List Nat)

/-- Python `len(body)`: the character count of a text body, the byte
count of a bytes body. -/
def pyLen : BodyV → Nat
  | .str s => s.data.length
  | .bytes bs => bs.length

/-- Python truthiness of a body value (`if body:` in `_send`). -/
def bodyTruthy : BodyV → Bool
  | .str s => s ≠ ""
  | .bytes bs => !bs.isEmpty

/-- The bytes `_send` (request.py lines 367-381) appends for the body:
a bytes body is concatenated as is; a text body raises `TypeError` on
`+=` and is then converted with `bytes(body, self.encoding)`. -/
def bodyWireBytes : BodyV → List Nat
  | .str s => utf8Bytes s
  | .bytes bs => bs

/-- Embedding of `Request._send`: the package lines are CRLF-joined,
terminated by a blank line, encoded, and the body bytes are appended
raw (never CRLF-joined) when the body is truthy. -/
def send_bytes (package : List String) (body : BodyV) : List Nat :=
  utf8Bytes (joinSep "\r\n" package ++ "\r\n\r\n") ++
    (if bodyTruthy body then bodyWireBytes body else [])

/-- Python dict merge `{**a, **b}`: `a`'s keys in their order with
values overridden by `b` where present, then `b`'s new keys in `b`'s
order. -/
def pyMerge (a b : List (String × PyVal)) : List (String × PyVal) :=
  a.map (fun kv =>
    (kv.1, match b.find? (fun kv2 => kv2.1 == kv.1) with
           | some kv2 => kv2.2
           | none => kv.2)) ++
  b.filter (fun kv2 => (a.find? (fun kv => kv.1 == kv2.1)).isNone)

/-- The multipart content type string with its leading space exactly as
`_formulate_body` builds it (request.py line 211). -/
def multipartCtype (boundary : String) : String :=
  " multipart/form-data; boundary=" ++ boundary

/-- Embedding of `Request._formulate_body` (request.py lines 204-233):
returns `(content_type, str(len(body)), body)`.  Branch order: files
and data merged into one multipart body; files alone multipart; data
alone URL-encoded via `_dict_2_query(params=False)` unless the value
has no `.items` (`AttributeError`), in which case it is used verbatim
as a `text/html` body; JSON only when neither files nor data were
supplied; otherwise no content type and an empty body.  Note
`str(len(body))` measures a *text* body in characters, not bytes.
Merging files with a non-mapping `data` raises `TypeError`
(`Except.error`), as does a non-string multipart part value. -/
def formulate_body (fs : String → Option (List Nat)) (boundary : String)
    (files : Option (List (String × String))) (data : Option DataArg)
    (json : Option JsonVal) : Except Unit (Option String × String × BodyV) :=
  match files, data with
  | some f, some d =>
    match d with
    | .dict dd => do
      let bs ← multipart_pkg fs boundary (pyMerge (strParts f) dd)
      pure (some (multipartCtype boundary), toString bs.length, BodyV.bytes bs)
    | .raw _ => .error ()
  | some f, none => do
    let bs ← multipart_pkg fs boundary (strParts f)
    pure (some (multipartCtype boundary), toString bs.length, BodyV.bytes bs)
  | none, some d =>
    match d with
    | .dict dd =>
      let b := dict_2_query dd false false
      .ok (some " application/x-www-form-urlencoded", toString b.data.length, .str b)
    | .raw s => .ok (some " text/html", toString s.data.length, .str s)
  | none, none =>
    match json with
    | some j =>
      let b := jsonDumps j
      .ok (some " application/json", toString b.data.length, .str b)
    | none => .ok (none, "0", .str "")

/-- An empty file system: every path misses (`FileNotFoundError`). -/
def fsEmpty : String → Option (List Nat) := fun _ => none

theorem strAppendAssoc (a b c : String) : a ++ b ++ c = a ++ (b ++ c) := by
  apply String.ext
  simp [String.data_append]

theorem strAppendEmpty (a : String) : a ++ "" = a := by
  apply String.ext
  simp [String.data_append]

theorem foldlAppendJoinAll (g : (String × String) → String) :
    ∀ (l : List (String × String)) (acc : String),
      l.foldl (fun a kv => a ++ g kv) acc = acc ++ joinAll (l.map g) := by
  intro l
  induction l with
  | nil => intro acc; simp [joinAll, strAppendEmpty]
  | cons kv rest ih =>
    intro acc
    simp only [List.foldl_cons, List.map_cons, joinAll]
    rw [ih, strAppendAssoc]

theorem joinAllSepTrailing (sep : String) :
    ∀ (l : List String), l ≠ [] →
      joinAll (l.map (fun e => e ++ sep)) = joinSep sep l ++ sep := by
  intro l
  induction l with
  | nil => intro h; exact absurd rfl h
  | cons e rest ih =>
    intro _
    match rest, ih with
    | [], _ => simp [joinAll, joinSep, strAppendEmpty]
    | f :: t, ih =>
      simp only [List.map_cons, joinAll, joinSep] at ih ⊢
      rw [ih (by simp)]
      simp [strAppendAssoc]

theorem pyDropLastCharAppend (t : String) :
    pyDropLastChar (t ++ "; ") = t ++ ";" := by
  apply String.ext
  show (t.data ++ "; ".data).dropLast = _
  rw [show ("; " : String).data = [';'] ++ [' '] from rfl, ← List.append_assoc,
      List.dropLast_concat, String.data_append]

theorem strEmptyAppend (a : String) : "" ++ a = a := by
  apply String.ext
  simp [String.data_append]

/-- C6 (corrected): for a non-empty merged cookie mapping the request
package gains exactly one `Cookie` header line; its value is the
`k=v` entries joined by `'; '` **followed by a trailing `;`** — the
code chops only the final space of the accumulated `'k=v; '` fragments
(`cookie_str[:-1]`), so the last separator's semicolon survives. -/
theorem cookie_header_single_line (cookies : List (String × String))
    (h : cookies ≠ []) :
    cookie_lines cookies =
      ["Cookie: " ++
        joinSep "; " (cookies.map (fun kv => kv.1 ++ "=" ++ kv.2)) ++ ";"] := by
  have hne : cookies.map (fun kv => kv.1 ++ "=" ++ kv.2) ≠ [] := by
    simpa using h
  have h1 : cookie_str cookies =
      joinSep "; " (cookies.map (fun kv => kv.1 ++ "=" ++ kv.2)) ++ "; " := by
    unfold cookie_str
    rw [foldlAppendJoinAll (fun kv => kv.1 ++ "=" ++ kv.2 ++ "; ") cookies ""]
    rw [show cookies.map (fun kv => kv.1 ++ "=" ++ kv.2 ++ "; ") =
          (cookies.map (fun kv => kv.1 ++ "=" ++ kv.2)).map (fun e => e ++ "; ")
        from by rw [List.map_map]; rfl]
    rw [joinAllSepTrailing "; " _ hne, strEmptyAppend]
  cases cookies with
  | nil => exact absurd rfl h
  | cons kv rest =>
    show [cookie_header_line (kv :: rest)] = _
    unfold cookie_header_line
    rw [h1, pyDropLastCharAppend]
    simp [strAppendAssoc]

/-- C6 counterexample: the claim demands the entries joined by `'; '`
with no trailing separator, but already for the single cookie `a=b`
the emitted value ends in a semicolon. -/
theorem cookie_header_trailing_semicolon :
    cookie_header_line [("a", "b")] = "Cookie: a=b;" ∧
    ("Cookie: a=b;" : String) ≠ "Cookie: " ++ joinSep "; " ["a=b"] := by
  exact ⟨rfl, by decide⟩

/-- Witness for C6's amended theorem at the cookie mapping `a=b`. -/
theorem cookie_header_single_line_witness :
    cookie_lines [("a", "b")] = ["Cookie: a=b;"] := by
  rw [cookie_header_single_line [("a", "b")] (by decide)]
  rfl

theorem appendColonNe (a p : String) : a ++ ":" ++ p ≠ a := by
  intro h
  have hd := congrArg String.data h
  rw [String.data_append, String.data_append,
      show (":" : String).data = [':'] from rfl] at hd
  have hl := congrArg List.length hd
  simp only [List.length_append, List.length_cons, List.length_nil] at hl
  omega

/-- C5 (amended): the `Host` header is the bare host exactly when the
effective port string is `'80'` or `'443'`, irrespective of the URI
scheme; for any other port it is `host:port`.  (The code compares the
port against both default strings without consulting the scheme;
when no explicit port is present it defaults to `'443'` for URIs
starting with `https` and `'80'` otherwise, so such URIs always get a
bare host.) -/
theorem host_header_bare_iff_port_80_or_443 (uri : String) :
    (hostHeader uri = bareHost uri ↔
      (effectivePort uri = "80" ∨ effectivePort uri = "443"))
    ∧ (hostHeader uri = bareHost uri ∨
       hostHeader uri = bareHost uri ++ ":" ++ effectivePort uri) := by
  by_cases hp : effectivePort uri = "80" ∨ effectivePort uri = "443"
  · have hb : (effectivePort uri == "80" || effectivePort uri == "443") = true := by
      rcases hp with h | h <;> simp [h]
    unfold hostHeader
    rw [if_pos hb]
    exact ⟨⟨fun _ => hp, fun _ => rfl⟩, Or.inl rfl⟩
  · push_neg at hp
    have hb : (effectivePort uri == "80" || effectivePort uri == "443") = false := by
      simp [hp.1, hp.2]
    unfold hostHeader
    rw [if_neg (by simp [hb])]
    refine ⟨⟨fun h => absurd h (appendColonNe _ _), fun h => ?_⟩, Or.inr rfl⟩
    rcases h with h | h
    · exact absurd h hp.1
    · exact absurd h hp.2

/-- C5 counterexample: for `http://example.com:443/` the scheme default
port is 80, the effective port is 443, yet the assembled `Host` header
is the bare host — the code treats 443 as default for every scheme,
contradicting the claim's "bare exactly when the port is the scheme's
default". -/
theorem host_header_http_443_counterexample :
    uriScheme "http://example.com:443/" = "http" ∧
    claimDefaultPort "http" = "80" ∧
    effectivePort "http://example.com:443/" = "443" ∧
    hostHeader "http://example.com:443/" = "example.com" ∧
    bareHost "http://example.com:443/" = "example.com" ∧
    ("443" : String) ≠ "80" := by
  exact ⟨rfl, rfl, rfl, rfl, rfl, by decide⟩

theorem request_io_nil (m : String) (b : Int) (i : Nat) :
    request_io m b [] i =
      if m == "HEAD" then .ok i
      else if b < 0 then .error i
      else .ok i := rfl

theorem request_io_cons (m : String) (b : Int) (o : Bool) (rest : List Bool)
    (i : Nat) :
    request_io m b (o :: rest) i =
      if m == "HEAD" then .ok i
      else if b < 0 then .error i
      else if o then request_io m (b - 1) rest (i + 1) else .ok i := by
  cases o <;> rfl

theorem request_io_replicate (m : String) (hm : m ≠ "HEAD") (r : Nat) :
    ∀ (i : Nat) (b : Int),
      request_io m b (List.replicate r true) i =
        if b < 0 then Except.error i
        else if (r : Int) ≤ b then Except.ok (i + r)
        else Except.error (i + b.toNat + 1) := by
  have hm' : (m == "HEAD") = false := by simp [hm]
  induction r with
  | zero =>
    intro i b
    rw [List.replicate_zero, request_io_nil, hm']
    simp only [Bool.false_eq_true, if_false]
    split_ifs with h1 h2
    · rfl
    · simp
    · omega
  | succ r ih =>
    intro i b
    rw [List.replicate_succ, request_io_cons, hm']
    simp only [Bool.false_eq_true, if_false, if_true]
    by_cases h1 : b < 0
    · rw [if_pos h1, if_pos h1]
    · rw [if_neg h1, if_neg h1, ih (i + 1) (b - 1)]
      split_ifs with h2 h3 h4 <;> simp_all <;> omega

/-- C2 (amended): for a non-`HEAD` request with finite redirect budget
`b` against a peer that offers `r` redirects, the `TooManyRedirects`
error is raised **iff** the peer offers more than `b` redirects (this
half of the claim holds); but the counter is decremented once per
request iteration — also on the final, non-redirect response — and the
error fires only when the counter is found already negative while
processing a response, i.e. after `b + 1` redirects have been followed
and one further request has been sent and answered.  In particular a
budget of 2 against 3 offered redirects fails after following the 3rd
redirect, not the 2nd. -/
theorem request_io_budget (m : String) (b r : Nat) (hm : m ≠ "HEAD") :
    request_io m (b : Int) (List.replicate r true) 0 =
      if b < r then Except.error (b + 1) else Except.ok r := by
  rw [request_io_replicate m hm r 0 b]
  split_ifs with h1 h2 h3 <;> simp_all <;> omega

/-- C2 counterexample: with budget 2 and three redirects offered the
request follows all three redirects and raises the too-many-redirects
error only while handling the response to the fourth request — not, as
claimed, after following the second redirect (the error payload is the
number of redirects followed). -/
theorem request_io_budget_two_follows_three :
    request_io "GET" 2 [true, true, true] 0 = Except.error 3 ∧ (3 : Nat) ≠ 2 :=
  ⟨rfl, by decide⟩

/-- Witness for C2's amended theorem: method `GET`, budget 2, three
redirects offered; the error fires carrying `b + 1 = 3`. -/
theorem request_io_budget_witness :
    request_io "GET" ((2 : Nat) : Int) (List.replicate 3 true) 0 =
      Except.error 3 := by
  rw [request_io_budget "GET" 2 3 (by decide)]
  rfl

/-- C4 (code bug): whenever `Content-Length` is positive and a
streaming callback is configured, the body field of the response is
whatever `parse_body` returns — line 350's sentinel assignment (the
callback's `__name__`) is unconditionally overwritten by line 361, so
with a parser returning the buffered data `"hello"` the body is
`"hello"`, not the sentinel `"cb"` the claim (and the function's own
docstring) promise. -/
theorem catch_response_body_overwrites_sentinel :
    (∀ pb : ParseMode → String,
      catch_response_body [("Content-Length", "5")] (some "cb") pb =
        .ok (some (pb (.length 5 (some "cb")))))
    ∧ catch_response_body [("Content-Length", "5")] (some "cb")
        (fun _ => "hello") = .ok (some "hello")
    ∧ ("hello" : String) ≠ "cb" :=
  ⟨fun _ => rfl, rfl, by decide⟩

/-- C3 (amended): the body-framing decision of `_catch_response`
depends only on the response headers: (a) with a `Content-Length`
header present, its value must parse as an integer (else the request
attempt fails with `ValueError`); a positive value selects an exact
`N`-byte read, a non-positive one an absent body — even when a
`Transfer-Encoding: chunked` header is also present; (b) the chunked
decode is selected only when no `Content-Length` header exists at all
and the stripped `Transfer-Encoding` value is `chunked`; (c) otherwise
the body is absent.  The request method is never consulted, so a
response to a `HEAD` request gets an absent body exactly when these
header rules say so (e.g. zero-length bodies), and zero-length bodies
always yield an absent body. -/
theorem body_framing_characterization (hs : List (String × String)) :
    (∀ n : Int, body_framing hs = .ok (.length n) ↔
        ∃ cl, lookupHeader hs "Content-Length" = some cl ∧
          pyInt? cl = some n ∧ 0 < n)
    ∧ (body_framing hs = .ok .chunked ↔
        (lookupHeader hs "Content-Length" = none ∧
          ∃ te, lookupHeader hs "Transfer-Encoding" = some te ∧
            pyStrip te = "chunked"))
    ∧ (body_framing hs = .error () ↔
        ∃ cl, lookupHeader hs "Content-Length" = some cl ∧ pyInt? cl = none)
    ∧ (body_framing hs = .ok .noBody ↔
        ((∃ cl n, lookupHeader hs "Content-Length" = some cl ∧
            pyInt? cl = some n ∧ n ≤ 0)
         ∨ (lookupHeader hs "Content-Length" = none ∧
            ∀ te, lookupHeader hs "Transfer-Encoding" = some te →
              pyStrip te ≠ "chunked"))) := by
  rcases hcl : lookupHeader hs "Content-Length" with _ | cl
  · rcases hte : lookupHeader hs "Transfer-Encoding" with _ | te
    · simp [body_framing, hcl, hte]
    · by_cases hch : pyStrip te = "chunked"
      · simp [body_framing, hcl, hte, hch]
      · have hch' : (pyStrip te == "chunked") = false := by simp [hch]
        simp [body_framing, hcl, hte, hch', hch]
  · rcases hn : pyInt? cl with _ | n
    · simp [body_framing, hcl, hn]
    · by_cases h0 : 0 < n
      · simp [body_framing, hcl, hn, h0]
      · simp [body_framing, hcl, hn, h0]
        omega

/-- C3 counterexample: a response carrying both `Content-Length: 0`
and `Transfer-Encoding: chunked` — the claim's order says the chunked
stream is decoded (Content-Length is present but not positive), yet
the code, which only checks `Transfer-Encoding` in the `KeyError`
branch for a missing `Content-Length`, produces an absent body. -/
theorem body_framing_cl0_chunked_counterexample :
    body_framing [("Content-Length", "0"), ("Transfer-Encoding", "chunked")] =
      .ok .noBody
    ∧ claimedFraming [("Content-Length", "0"), ("Transfer-Encoding", "chunked")] =
      .chunked
    ∧ Framing.noBody ≠ Framing.chunked :=
  ⟨rfl, rfl, by decide⟩

theorem d2qPairsFoldl (data : List (String × PyVal)) :
    ∀ acc : List String,
      data.foldl (fun query kv => query ++ d2qEntry kv.1 kv.2) acc =
        acc ++ claimQueryPairs data := by
  induction data with
  | nil => intro acc; simp [claimQueryPairs]
  | cons kv rest ih =>
    intro acc
    have hstep : claimQueryPairs (kv :: rest) =
        d2qEntry kv.1 kv.2 ++ claimQueryPairs rest := by
      unfold claimQueryPairs
      rw [List.flatMap_cons]
      rfl
    rw [List.foldl_cons, ih, hstep, List.append_assoc]

/-- C7: the query encoder is deterministic and order-preserving: the
pair list it accumulates equals, entry by entry in input iteration
order, the spec's description — scalars as a single `key=value` pair
with whitespace runs turned into `+`, nested mappings flattened to one
`key=subkey` pair per subkey with the submap's values dropped, other
iterables one pair per element, falsy values skipped — and the encoded
body is those pairs joined by `&`, each percent-encoded with the
`/=+?&`-preserving safe set. -/
theorem dict_2_query_matches_spec (data : List (String × PyVal)) :
    d2qPairs data = claimQueryPairs data
    ∧ dict_2_query data false false = joinSep "&" (claimQueryPairs data) := by
  have h1 : d2qPairs data = claimQueryPairs data := by
    unfold d2qPairs
    rw [d2qPairsFoldl data []]
    simp
  exact ⟨h1, by simp [dict_2_query, h1]⟩

theorem multipart_pkg_singleton (fs : String → Option (List Nat))
    (B k v : String) :
    multipart_pkg fs B [(k, PyVal.str v)] =
      .ok (part_delim B ++ part_bytes fs k v ++ terminal_delim B) := rfl

theorem multipart_pkg_cons (fs : String → Option (List Nat)) (B k v : String)
    (rest : List (String × PyVal)) (hrest : rest ≠ []) :
    multipart_pkg fs B ((k, PyVal.str v) :: rest) =
      (do
        let restBytes ← multipart_pkg fs B rest
        pure (part_delim B ++ part_bytes fs k v ++ restBytes)) := by
  cases rest with
  | nil => exact absurd rfl hrest
  | cons r rrest => rfl

/-- C8 (amended): for every **non-empty** parts mapping the produced
multipart body is exactly, for each part in order, the `--boundary\r\n`
delimiter followed by the encoded part, with the terminal
`--boundary--\r\n` marker after the final part — `(number of parts)+1`
boundary delimiters, the last being the terminal marker.  (An empty
mapping never enters the loop and yields an empty body with no
delimiter at all.) -/
theorem multipart_pkg_shape (fs : String → Option (List Nat))
    (boundary : String) (parts : List (String × String)) (h : parts ≠ []) :
    multipart_pkg fs boundary (strParts parts) =
      .ok (multipart_claim_shape fs boundary parts) := by
  induction parts with
  | nil => exact absurd rfl h
  | cons kv rest ih =>
    cases rest with
    | nil =>
      show multipart_pkg fs boundary [(kv.1, PyVal.str kv.2)] = _
      rw [multipart_pkg_singleton]
      simp [multipart_claim_shape, List.append_assoc]
    | cons kv2 rest2 =>
      show multipart_pkg fs boundary
          ((kv.1, PyVal.str kv.2) :: strParts (kv2 :: rest2)) = _
      rw [multipart_pkg_cons fs boundary kv.1 kv.2 (strParts (kv2 :: rest2))
            (by simp [strParts]),
          ih (by simp)]
      show Except.ok _ = _
      simp [multipart_claim_shape, List.flatMap_cons, List.append_assoc]

/-- C8 counterexample: the empty parts mapping produces the empty byte
string, which contains no boundary delimiter, while the claim demands
`0 + 1 = 1` delimiters (the terminal marker). -/
theorem multipart_pkg_empty_counterexample :
    multipart_pkg fsEmpty "B" [] = .ok []
    ∧ multipart_claim_shape fsEmpty "B" [] = terminal_delim "B"
    ∧ terminal_delim "B" ≠ ([] : List Nat) :=
  ⟨rfl, by simp [multipart_claim_shape], by decide⟩

/-- Witness for C8's amended theorem on the one-part mapping `k ↦ v`
over the empty file system. -/
theorem multipart_pkg_shape_witness :
    multipart_pkg fsEmpty "B" (strParts [("k", "v")]) =
      .ok (multipart_claim_shape fsEmpty "B" [("k", "v")]) :=
  multipart_pkg_shape fsEmpty "B" [("k", "v")] (by decide)

/-- C9 (code bug): for the readable file `photo.jpg` the `mimetypes`
collaborator guesses the type `image/jpeg` (and no encoding), yet the
part's declared content type is `application/octet-stream`: the code
tests `mime_type[1]` — the encoding slot — instead of the guessed type,
so the fallback is used although a type was guessed, contradicting the
claim that the guessed type is attached and the fallback used exactly
when no type can be guessed. -/
theorem multipart_mime_tests_wrong_slot :
    guess_type "photo.jpg" = (some "image/jpeg", none)
    ∧ multipartMime "photo.jpg" = .ok "application/octet-stream"
    ∧ (guess_type "photo.jpg").1 ≠ some "application/octet-stream" :=
  ⟨rfl, rfl, by decide⟩

/-- C10: body-source precedence of `_formulate_body`: files plus
mapping form data build one multipart body over the merged dict (form
entries overriding file entries of the same name); files alone build a
multipart body; mapping form data alone builds the URL-encoded body,
non-mapping form data the raw `text/html` fallback; and a JSON payload
is consulted only when neither files nor data are supplied — in every
other branch the `json` argument is silently ignored (it does not
occur in those equations). -/
theorem formulate_body_precedence (fs : String → Option (List Nat))
    (B : String) :
    (∀ (f : List (String × String)) (dd : List (String × PyVal))
        (j : Option JsonVal),
      formulate_body fs B (some f) (some (.dict dd)) j =
        (multipart_pkg fs B (pyMerge (strParts f) dd)).map
          (fun bs => (some (multipartCtype B), toString bs.length,
                      BodyV.bytes bs)))
    ∧ (∀ (f : List (String × String)) (j : Option JsonVal),
      formulate_body fs B (some f) none j =
        (multipart_pkg fs B (strParts f)).map
          (fun bs => (some (multipartCtype B), toString bs.length,
                      BodyV.bytes bs)))
    ∧ (∀ (dd : List (String × PyVal)) (j : Option JsonVal),
      formulate_body fs B none (some (.dict dd)) j =
        .ok (some " application/x-www-form-urlencoded",
             toString (dict_2_query dd false false).data.length,
             .str (dict_2_query dd false false)))
    ∧ (∀ (s : String) (j : Option JsonVal),
      formulate_body fs B none (some (.raw s)) j =
        .ok (some " text/html", toString s.data.length, .str s))
    ∧ (∀ j : JsonVal,
      formulate_body fs B none none (some j) =
        .ok (some " application/json", toString (jsonDumps j).data.length,
             .str (jsonDumps j))) := by
  refine ⟨?_, ?_, fun dd j => rfl, fun s j => rfl, fun j => rfl⟩
  · intro f dd j
    rcases h : multipart_pkg fs B (pyMerge (strParts f) dd) with e | bs <;>
      simp [formulate_body, h, Except.map]
  · intro f j
    rcases h : multipart_pkg fs B (strParts f) with e | bs <;>
      simp [formulate_body, h, Except.map]

/-- C1 (code bug): for the raw-text form body `"é"` the header value is
`str(len(body)) = "1"` — the character count — while the bytes actually
appended to the wire package by `_send` after encoding are two, so the
`Content-Length` placed in the header block does not equal the byte
length of the transmitted body. -/
theorem formulate_body_content_length_not_byte_length :
    formulate_body fsEmpty "BND" none (some (.raw "é")) none =
      .ok (some " text/html", "1", .str "é")
    ∧ (bodyWireBytes (BodyV.str "é")).length = 2
    ∧ toString (bodyWireBytes (BodyV.str "é")).length ≠ "1" :=
  ⟨rfl, rfl, by decide⟩
